import Mathlib

/-!
Verification of the bird-vs-worm pursuit simulation (`src/simulation.py`).

The Python code works with IEEE floats; following the spec's "within floating
tolerance" reading, the embedding models numbers as real numbers (`ℝ`).
Python's `math.sqrt` becomes `Real.sqrt`, `int(...)` truncation toward zero
becomes `pyInt`, and `round(x, 2)` (banker's rounding, half to even) becomes
`round2`.  Randomness is injected: the four `random.uniform` draws of
`run_simulation` become explicit arguments.
-/

namespace Wormbird

/-- The `Entity` class from the source: a 2D position and a scalar speed.
The `name` tag and the `Bird.catch_radius` field are labeling only (the
outcome checks use the global `CATCH_RADIUS`), so they are not carried
here. -/
structure Entity where
  x : ℝ
  y : ℝ
  speed : ℝ

/-- Source `Entity.distance_to`: Euclidean distance from the entity to
`(tx, ty)`. -/
noncomputable def Entity.distance_to (e : Entity) (tx ty : ℝ) : ℝ :=
  Real.sqrt ((tx - e.x) ^ 2 + (ty - e.y) ^ 2)

/-- Source `Entity.move_towards`: move toward `(tx, ty)` for one step of
length `delta_time`.  If the distance is zero nothing happens (the source
returns before the normalizing division); if the distance is strictly less
than `speed * delta_time` the position snaps exactly to the target;
otherwise the entity advances by `speed * delta_time` along the unit
direction vector. -/
noncomputable def Entity.move_towards (e : Entity) (tx ty delta_time : ℝ) : Entity :=
  let dx := tx - e.x
  let dy := ty - e.y
  let distance := Real.sqrt (dx ^ 2 + dy ^ 2)
  if distance = 0 then e
  else
    let ux := dx / distance
    let uy := dy / distance
    let max_movement := e.speed * delta_time
    if distance < max_movement then
      { e with x := tx, y := ty }
    else
      { e with x := e.x + ux * max_movement, y := e.y + uy * max_movement }

/-- The global configuration set by `adjust_parameters` before any trial. -/
structure Config where
  FIELD_SIZE : ℝ
  SAFE_ZONE_POS : ℝ × ℝ
  BIRD_SPEED : ℝ
  CATCH_RADIUS : ℝ
  WORM_SPEED : ℝ
  STEP_TIME : ℝ

/-- The `outcome` field of a result record. -/
inductive Outcome where
  | Caught
  | Safe
  | Timeout
  deriving DecidableEq

/-- The dictionary returned by `run_simulation`. -/
structure SimResult where
  attempt_id : ℕ
  outcome : Outcome
  time_s : ℝ
  worm_x : ℝ
  worm_y : ℝ

/-- Python `int(...)` on a real value: truncation toward zero. -/
noncomputable def pyInt (x : ℝ) : ℤ :=
  if 0 ≤ x then ⌊x⌋ else -⌊-x⌋

/-- Round to the nearest integer, ties to even — the rounding of Python 3's
built-in `round`. -/
noncomputable def roundHalfEven (x : ℝ) : ℤ :=
  if Int.fract x = 1 / 2 then (if Even ⌊x⌋ then ⌊x⌋ else ⌊x⌋ + 1)
  else round x

/-- Python `round(x, 2)`: round to two decimal places, ties to even. -/
noncomputable def round2 (x : ℝ) : ℝ :=
  (roundHalfEven (x * 100) : ℝ) / 100

/-- Step cap `max_steps` computed at the top of `run_simulation`:
`int(FIELD_SIZE / WORM_SPEED / STEP_TIME * 2)`. -/
noncomputable def max_steps (cfg : Config) : ℤ :=
  pyInt (cfg.FIELD_SIZE / cfg.WORM_SPEED / cfg.STEP_TIME * 2)

/-- The `for step in range(max_steps)` loop of `run_simulation`, recursing
on the remaining number of iterations.  Each iteration: the bird moves
toward the worm's pre-move position, then the worm moves toward the safe
zone; the two post-move distances decide the outcome, `Caught` checked
first; when the fuel runs out a `Timeout` record is returned. -/
noncomputable def simLoop (cfg : Config) (attempt_id : ℕ) :
    Entity → Entity → ℝ → ℕ → SimResult
  | _bird, worm, time_elapsed, 0 =>
      ⟨attempt_id, .Timeout, round2 time_elapsed, round2 worm.x, round2 worm.y⟩
  | bird, worm, time_elapsed, fuel + 1 =>
      let bird1 := bird.move_towards worm.x worm.y cfg.STEP_TIME
      let worm1 := worm.move_towards cfg.SAFE_ZONE_POS.1 cfg.SAFE_ZONE_POS.2 cfg.STEP_TIME
      let bird_worm_dist := bird1.distance_to worm1.x worm1.y
      let worm_safe_dist := worm1.distance_to cfg.SAFE_ZONE_POS.1 cfg.SAFE_ZONE_POS.2
      let t1 := time_elapsed + cfg.STEP_TIME
      if bird_worm_dist ≤ cfg.CATCH_RADIUS then
        ⟨attempt_id, .Caught, round2 t1, round2 worm1.x, round2 worm1.y⟩
      else if worm_safe_dist ≤ cfg.CATCH_RADIUS / 2 then
        ⟨attempt_id, .Safe, round2 t1, round2 worm1.x, round2 worm1.y⟩
      else
        simLoop cfg attempt_id bird1 worm1 t1 fuel

/-- Source `run_simulation` with the four `random.uniform` draws made
explicit: the worm starts at `(worm_start_x, worm_start_y)` and the bird at
the worm's start plus `(off_x, off_y)`. -/
noncomputable def run_simulation (cfg : Config) (attempt_id : ℕ)
    (worm_start_x worm_start_y off_x off_y : ℝ) : SimResult :=
  let worm : Entity := ⟨worm_start_x, worm_start_y, cfg.WORM_SPEED⟩
  let bird : Entity := ⟨worm.x + off_x, worm.y + off_y, cfg.BIRD_SPEED⟩
  simLoop cfg attempt_id bird worm 0 (max_steps cfg).toNat

/-- Number of loop iterations `simLoop` actually executes (instrumentation
of the same recursion; the source has no counterpart because Python's `for`
bounds it syntactically). -/
noncomputable def simLoopSteps (cfg : Config) : Entity → Entity → ℝ → ℕ → ℕ
  | _bird, _worm, _time_elapsed, 0 => 0
  | bird, worm, time_elapsed, fuel + 1 =>
      let bird1 := bird.move_towards worm.x worm.y cfg.STEP_TIME
      let worm1 := worm.move_towards cfg.SAFE_ZONE_POS.1 cfg.SAFE_ZONE_POS.2 cfg.STEP_TIME
      let bird_worm_dist := bird1.distance_to worm1.x worm1.y
      let worm_safe_dist := worm1.distance_to cfg.SAFE_ZONE_POS.1 cfg.SAFE_ZONE_POS.2
      let t1 := time_elapsed + cfg.STEP_TIME
      if bird_worm_dist ≤ cfg.CATCH_RADIUS then 1
      else if worm_safe_dist ≤ cfg.CATCH_RADIUS / 2 then 1
      else 1 + simLoopSteps cfg bird1 worm1 t1 fuel

/-- Steps executed by `run_simulation` for the given start draws. -/
noncomputable def run_simulation_steps (cfg : Config)
    (worm_start_x worm_start_y off_x off_y : ℝ) : ℕ :=
  let worm : Entity := ⟨worm_start_x, worm_start_y, cfg.WORM_SPEED⟩
  let bird : Entity := ⟨worm.x + off_x, worm.y + off_y, cfg.BIRD_SPEED⟩
  simLoopSteps cfg bird worm 0 (max_steps cfg).toNat

/-- Source `run_trials`: `for i in range(1, num_trials + 1):
run_simulation(i)`, with each trial's four random draws supplied by
`draws`. -/
noncomputable def run_trials (cfg : Config) (draws : ℕ → ℝ × ℝ × ℝ × ℝ)
    (num_trials : ℕ) : List SimResult :=
  (List.range num_trials).map fun k =>
    let d := draws (k + 1)
    run_simulation cfg (k + 1) d.1 d.2.1 d.2.2.1 d.2.2.2

/-- Counter `safe_count` in `run_trials`. -/
def safe_count (results : List SimResult) : ℕ :=
  results.countP fun r => decide (r.outcome = .Safe)

/-- Counter `caught_count` in `run_trials`. -/
def caught_count (results : List SimResult) : ℕ :=
  results.countP fun r => decide (r.outcome = .Caught)

/-- Number of `Timeout` records (the source prints it as
`num_trials - safe_count - caught_count`). -/
def timeout_count (results : List SimResult) : ℕ :=
  results.countP fun r => decide (r.outcome = .Timeout)

/-- List `safe_times` in `run_trials`: the `time_s` of the `Safe`
records. -/
def safe_times (results : List SimResult) : List ℝ :=
  (results.filter fun r => decide (r.outcome = .Safe)).map SimResult.time_s

/-- The average escape time printed by `run_trials`, guarded by
`if safe_times:` — `none` models the branch not being taken. -/
noncomputable def average_escape_time (results : List SimResult) : Option ℝ :=
  if safe_times results = [] then none
  else some ((safe_times results).sum / (safe_times results).length)

/-- Configuration used by concrete witnesses: everything at the origin. -/
def cfgOrigin : Config :=
  { FIELD_SIZE := 1, SAFE_ZONE_POS := (0, 0), BIRD_SPEED := 1,
    CATCH_RADIUS := 1, WORM_SPEED := 1, STEP_TIME := 1 }

/-- Configuration whose step cap `int(1 / 4 / 1 * 2) = int(0.5)` is zero. -/
def cfgTiny : Config :=
  { FIELD_SIZE := 1, SAFE_ZONE_POS := (0, 0), BIRD_SPEED := 1,
    CATCH_RADIUS := 1, WORM_SPEED := 4, STEP_TIME := 1 }

/-- An invalid configuration (negative worm speed) that, per the spec,
should be rejected before any simulation work. -/
def cfgNegSpeed : Config :=
  { FIELD_SIZE := 1, SAFE_ZONE_POS := (10, 10), BIRD_SPEED := 1,
    CATCH_RADIUS := 1, WORM_SPEED := -1, STEP_TIME := 1 }

/-- Configuration for the C1 rounding counterexample: step cap
`int(0.003 / 1 / 0.005 * 2) = int(1.2) = 1`, so the Timeout time is
`round(0.005, 2) = 0`, not `1 * 0.005`. -/
noncomputable def cfgShortRun : Config :=
  { FIELD_SIZE := 3 / 1000, SAFE_ZONE_POS := (10, 0), BIRD_SPEED := 1,
    CATCH_RADIUS := 1, WORM_SPEED := 1, STEP_TIME := 1 / 200 }

/-- Rounding a zero time gives zero. -/
theorem round2_zero : round2 0 = 0 := by
  simp [round2, roundHalfEven, Int.fract]

/-- C5 — zero-distance guard: when the entity is already exactly at the
target, `move_towards` returns the entity unchanged (the source returns
before the normalizing division `dx / distance` is reached). -/
theorem move_towards_at_target (e : Entity) (tx ty delta_time : ℝ)
    (h : e.distance_to tx ty = 0) :
    e.move_towards tx ty delta_time = e := by
  unfold Entity.move_towards
  simp only [Entity.distance_to] at h
  simp [h]

/-- Witness for C5 at a concrete input: an entity sitting at its target. -/
theorem move_towards_at_target_witness :
    (Entity.mk 1 2 3).move_towards 1 2 5 = Entity.mk 1 2 3 :=
  move_towards_at_target ⟨1, 2, 3⟩ 1 2 5 (by
    simp [Entity.distance_to])

/-- C3 — overshoot clamping: when the step's maximum travel distance
`speed * delta_time` is at least the current (positive) distance to the
target, the entity lands exactly on the target.  (When the distance is
strictly smaller the snap branch fires; at exact equality the else branch
advances by exactly the remaining distance, which also lands on the
target.) -/
theorem move_towards_reaches_target (e : Entity) (tx ty delta_time : ℝ)
    (h0 : 0 < e.distance_to tx ty)
    (h : e.distance_to tx ty ≤ e.speed * delta_time) :
    (e.move_towards tx ty delta_time).x = tx ∧
    (e.move_towards tx ty delta_time).y = ty := by
  have hne : Real.sqrt ((tx - e.x) ^ 2 + (ty - e.y) ^ 2) ≠ 0 :=
    ne_of_gt (by simpa [Entity.distance_to] using h0)
  unfold Entity.move_towards
  simp only [hne, if_false]
  rcases lt_or_eq_of_le (by simpa [Entity.distance_to] using h) with hlt | heq
  · simp [hlt]
  · have hnlt : ¬ Real.sqrt ((tx - e.x) ^ 2 + (ty - e.y) ^ 2) < e.speed * delta_time := by
      rw [heq]; exact lt_irrefl _
    simp only [hnlt, if_false]
    constructor
    · have : (tx - e.x) / Real.sqrt ((tx - e.x) ^ 2 + (ty - e.y) ^ 2) *
          (e.speed * delta_time) = tx - e.x := by
        rw [← heq]; field_simp
      simp [this]
    · have : (ty - e.y) / Real.sqrt ((tx - e.x) ^ 2 + (ty - e.y) ^ 2) *
          (e.speed * delta_time) = ty - e.y := by
        rw [← heq]; field_simp
      simp [this]

/-- Witness for C3: an entity at the origin with speed 1 and `dt = 2`,
target at distance 1, lands exactly on the target. -/
theorem move_towards_reaches_target_witness :
    0 < (Entity.mk 0 0 1).distance_to 1 0 ∧
    (Entity.mk 0 0 1).distance_to 1 0 ≤ (Entity.mk 0 0 1).speed * 2 ∧
    ((Entity.mk 0 0 1).move_towards 1 0 2).x = 1 ∧
    ((Entity.mk 0 0 1).move_towards 1 0 2).y = 0 := by
  have hd : (Entity.mk 0 0 1).distance_to 1 0 = 1 := by
    simp [Entity.distance_to]
  refine ⟨by rw [hd]; norm_num, by rw [hd]; norm_num, ?_⟩
  exact move_towards_reaches_target ⟨0, 0, 1⟩ 1 0 2
    (by rw [hd]; norm_num) (by rw [hd]; norm_num)

/-- Helper: the post-move displacement to the target, in the no-snap branch,
is the old displacement scaled by `(d - m) / d`. -/
theorem sub_div_mul_eq (a d m : ℝ) (hd : d ≠ 0) :
    a - a / d * m = a * ((d - m) / d) := by
  field_simp
  ring

/-- C4 — strict under-shoot: when `speed * delta_time` is strictly smaller
than the current (positive) distance to the target, the move decreases the
distance to the target by exactly `speed * delta_time` and preserves the
unit direction vector toward the target. -/
theorem move_towards_partial_step (e : Entity) (tx ty delta_time : ℝ)
    (h0 : 0 < e.distance_to tx ty)
    (h : e.speed * delta_time < e.distance_to tx ty) :
    (e.move_towards tx ty delta_time).distance_to tx ty
      = e.distance_to tx ty - e.speed * delta_time ∧
    (tx - (e.move_towards tx ty delta_time).x) /
        (e.move_towards tx ty delta_time).distance_to tx ty
      = (tx - e.x) / e.distance_to tx ty ∧
    (ty - (e.move_towards tx ty delta_time).y) /
        (e.move_towards tx ty delta_time).distance_to tx ty
      = (ty - e.y) / e.distance_to tx ty := by
  set dx := tx - e.x with hdx
  set dy := ty - e.y with hdy
  set d := Real.sqrt (dx ^ 2 + dy ^ 2) with hd
  have hdd : e.distance_to tx ty = d := rfl
  rw [hdd] at h0 h
  set m := e.speed * delta_time with hm
  have hdne : d ≠ 0 := ne_of_gt h0
  have hnlt : ¬ d < m := not_lt.2 h.le
  have hmv : e.move_towards tx ty delta_time =
      { e with x := e.x + dx / d * m, y := e.y + dy / d * m } := by
    unfold Entity.move_towards
    simp only [← hdx, ← hdy, ← hd, ← hm, hdne, if_false, hnlt]
  have hcnn : 0 ≤ (d - m) / d := div_nonneg (sub_nonneg.2 h.le) h0.le
  have hx' : tx - (e.x + dx / d * m) = dx * ((d - m) / d) := by
    have := sub_div_mul_eq dx d m hdne
    calc tx - (e.x + dx / d * m) = dx - dx / d * m := by rw [hdx]; ring
    _ = dx * ((d - m) / d) := this
  have hy' : ty - (e.y + dy / d * m) = dy * ((d - m) / d) := by
    have := sub_div_mul_eq dy d m hdne
    calc ty - (e.y + dy / d * m) = dy - dy / d * m := by rw [hdy]; ring
    _ = dy * ((d - m) / d) := this
  have hdist : (e.move_towards tx ty delta_time).distance_to tx ty = d - m := by
    rw [hmv]
    show Real.sqrt ((tx - (e.x + dx / d * m)) ^ 2 + (ty - (e.y + dy / d * m)) ^ 2) = d - m
    rw [hx', hy']
    have hfac : (dx * ((d - m) / d)) ^ 2 + (dy * ((d - m) / d)) ^ 2
        = (dx ^ 2 + dy ^ 2) * ((d - m) / d) ^ 2 := by ring
    rw [hfac, Real.sqrt_mul (by positivity), Real.sqrt_sq hcnn, ← hd]
    field_simp
  have hdmne : d - m ≠ 0 := sub_ne_zero.2 (ne_of_gt h)
  refine ⟨hdist, ?_, ?_⟩
  · rw [hdist, hmv]
    show (tx - (e.x + dx / d * m)) / (d - m) = dx / d
    rw [hx']
    field_simp
    ring
  · rw [hdist, hmv]
    show (ty - (e.y + dy / d * m)) / (d - m) = dy / d
    rw [hy']
    field_simp
    ring

/-- Witness for C4: entity at the origin with speed 1 and `dt = 1`, target
at distance 2 on the x-axis: new distance is 1, direction still `(1, 0)`. -/
theorem move_towards_partial_step_witness :
    0 < (Entity.mk 0 0 1).distance_to 2 0 ∧
    (Entity.mk 0 0 1).speed * 1 < (Entity.mk 0 0 1).distance_to 2 0 ∧
    (((Entity.mk 0 0 1).move_towards 2 0 1).distance_to 2 0
      = (Entity.mk 0 0 1).distance_to 2 0 - (Entity.mk 0 0 1).speed * 1 ∧
    (2 - ((Entity.mk 0 0 1).move_towards 2 0 1).x) /
        ((Entity.mk 0 0 1).move_towards 2 0 1).distance_to 2 0
      = (2 - (Entity.mk 0 0 1).x) / (Entity.mk 0 0 1).distance_to 2 0 ∧
    (0 - ((Entity.mk 0 0 1).move_towards 2 0 1).y) /
        ((Entity.mk 0 0 1).move_towards 2 0 1).distance_to 2 0
      = (0 - (Entity.mk 0 0 1).y) / (Entity.mk 0 0 1).distance_to 2 0) := by
  have hd : (Entity.mk 0 0 1).distance_to 2 0 = 2 := by
    simp only [Entity.distance_to]
    rw [show ((2:ℝ) - 0) ^ 2 + ((0:ℝ) - 0) ^ 2 = 2 ^ 2 by norm_num,
      Real.sqrt_sq (by norm_num)]
  refine ⟨by rw [hd]; norm_num, by rw [hd]; simp, ?_⟩
  exact move_towards_partial_step ⟨0, 0, 1⟩ 2 0 1
    (by rw [hd]; norm_num) (by rw [hd]; norm_num)

/-- C2 — per-tick outcome classification, after both moves of the tick,
with `Caught` checked first: the tick ends `Caught` exactly when the
bird-worm distance is within `CATCH_RADIUS`; only otherwise does it end
`Safe`, exactly when the worm-safe-zone distance is within
`CATCH_RADIUS / 2`; otherwise the loop continues; and when both conditions
hold the record is `Caught`, never `Safe`. -/
theorem tick_classification (cfg : Config) (a : ℕ) (bird worm : Entity)
    (t : ℝ) (fuel : ℕ) (bird1 worm1 : Entity)
    (hb : bird1 = bird.move_towards worm.x worm.y cfg.STEP_TIME)
    (hw : worm1 = worm.move_towards cfg.SAFE_ZONE_POS.1 cfg.SAFE_ZONE_POS.2 cfg.STEP_TIME) :
    (bird1.distance_to worm1.x worm1.y ≤ cfg.CATCH_RADIUS →
      simLoop cfg a bird worm t (fuel + 1) =
        ⟨a, .Caught, round2 (t + cfg.STEP_TIME), round2 worm1.x, round2 worm1.y⟩) ∧
    (¬ bird1.distance_to worm1.x worm1.y ≤ cfg.CATCH_RADIUS →
      worm1.distance_to cfg.SAFE_ZONE_POS.1 cfg.SAFE_ZONE_POS.2 ≤ cfg.CATCH_RADIUS / 2 →
      simLoop cfg a bird worm t (fuel + 1) =
        ⟨a, .Safe, round2 (t + cfg.STEP_TIME), round2 worm1.x, round2 worm1.y⟩) ∧
    (¬ bird1.distance_to worm1.x worm1.y ≤ cfg.CATCH_RADIUS →
      ¬ worm1.distance_to cfg.SAFE_ZONE_POS.1 cfg.SAFE_ZONE_POS.2 ≤ cfg.CATCH_RADIUS / 2 →
      simLoop cfg a bird worm t (fuel + 1) =
        simLoop cfg a bird1 worm1 (t + cfg.STEP_TIME) fuel) ∧
    (bird1.distance_to worm1.x worm1.y ≤ cfg.CATCH_RADIUS →
      worm1.distance_to cfg.SAFE_ZONE_POS.1 cfg.SAFE_ZONE_POS.2 ≤ cfg.CATCH_RADIUS / 2 →
      (simLoop cfg a bird worm t (fuel + 1)).outcome = .Caught ∧
      (simLoop cfg a bird worm t (fuel + 1)).outcome ≠ .Safe) := by
  subst hb hw
  refine ⟨fun h1 => ?_, fun h1 h2 => ?_, fun h1 h2 => ?_, fun h1 _ => ?_⟩
  · simp only [simLoop]
    rw [if_pos h1]
  · simp only [simLoop]
    rw [if_neg h1, if_pos h2]
  · simp only [simLoop]
    rw [if_neg h1, if_neg h2]
  · simp only [simLoop]
    rw [if_pos h1]
    exact ⟨rfl, by simp⟩

/-- Witness for C2: bird and worm both at the origin (which is also the
safe zone); after the tick's moves the bird-worm distance is
`0 ≤ CATCH_RADIUS`, so the tick is classified `Caught`. -/
theorem tick_classification_witness :
    simLoop cfgOrigin 1 ⟨0, 0, 1⟩ ⟨0, 0, 1⟩ 0 1 =
      ⟨1, .Caught, round2 (0 + cfgOrigin.STEP_TIME), round2 (0 : ℝ), round2 (0 : ℝ)⟩ := by
  have hb : (Entity.mk 0 0 1) =
      (Entity.mk 0 0 1).move_towards (Entity.mk 0 0 1).x (Entity.mk 0 0 1).y
        cfgOrigin.STEP_TIME := by
    simp [Entity.move_towards]
  have hw : (Entity.mk 0 0 1) =
      (Entity.mk 0 0 1).move_towards cfgOrigin.SAFE_ZONE_POS.1 cfgOrigin.SAFE_ZONE_POS.2
        cfgOrigin.STEP_TIME := by
    simp [Entity.move_towards, cfgOrigin]
  have h := (tick_classification cfgOrigin 1 ⟨0, 0, 1⟩ ⟨0, 0, 1⟩ 0 0
      ⟨0, 0, 1⟩ ⟨0, 0, 1⟩ hb hw).1
  exact h (by simp [Entity.distance_to, cfgOrigin])

/-- C6 — per-tick move order: each tick first moves the bird toward the
worm's pre-move position `(worm.x, worm.y)`, then moves the worm toward the
fixed safe-zone point, both with the same step duration `STEP_TIME`; the
outcome checks and the next iteration use only the post-move entities. -/
theorem step_order (cfg : Config) (a : ℕ) (bird worm : Entity) (t : ℝ) (fuel : ℕ) :
    ∃ bird1 worm1 : Entity,
      bird1 = bird.move_towards worm.x worm.y cfg.STEP_TIME ∧
      worm1 = worm.move_towards cfg.SAFE_ZONE_POS.1 cfg.SAFE_ZONE_POS.2 cfg.STEP_TIME ∧
      simLoop cfg a bird worm t (fuel + 1) =
        (if bird1.distance_to worm1.x worm1.y ≤ cfg.CATCH_RADIUS then
          ⟨a, .Caught, round2 (t + cfg.STEP_TIME), round2 worm1.x, round2 worm1.y⟩
        else if worm1.distance_to cfg.SAFE_ZONE_POS.1 cfg.SAFE_ZONE_POS.2 ≤
            cfg.CATCH_RADIUS / 2 then
          ⟨a, .Safe, round2 (t + cfg.STEP_TIME), round2 worm1.x, round2 worm1.y⟩
        else
          simLoop cfg a bird1 worm1 (t + cfg.STEP_TIME) fuel) :=
  ⟨_, _, rfl, rfl, by simp only [simLoop]⟩

/-- Every record `simLoop` produces carries the attempt id it was given. -/
theorem simLoop_attempt_id (cfg : Config) (a : ℕ) :
    ∀ fuel bird worm t, (simLoop cfg a bird worm t fuel).attempt_id = a := by
  intro fuel
  induction fuel with
  | zero => intro bird worm t; rfl
  | succ n ih =>
    intro bird worm t
    simp only [simLoop]
    split
    · rfl
    · split
      · rfl
      · exact ih _ _ _

/-- The three outcome counts partition any list of records. -/
theorem count_partition (results : List SimResult) :
    caught_count results + safe_count results + timeout_count results =
      results.length := by
  induction results with
  | nil => rfl
  | cons r rs ih =>
    simp only [caught_count, safe_count, timeout_count, List.countP_cons] at *
    cases h : r.outcome <;> simp [h] <;> omega

/-- C7 — batch shape: for `num_trials ≥ 1` the batch produces exactly
`num_trials` records, with `attempt_id` running `1, 2, ..., num_trials` in
order, and the `Caught`, `Safe` and `Timeout` counts summing to
`num_trials`. -/
theorem run_trials_spec (cfg : Config) (draws : ℕ → ℝ × ℝ × ℝ × ℝ)
    (num_trials : ℕ) (hn : 1 ≤ num_trials) :
    (run_trials cfg draws num_trials).length = num_trials ∧
    (∀ k (hk : k < (run_trials cfg draws num_trials).length),
      ((run_trials cfg draws num_trials).get ⟨k, hk⟩).attempt_id = k + 1) ∧
    caught_count (run_trials cfg draws num_trials) +
      safe_count (run_trials cfg draws num_trials) +
      timeout_count (run_trials cfg draws num_trials) = num_trials := by
  have hlen : (run_trials cfg draws num_trials).length = num_trials := by
    simp [run_trials]
  refine ⟨hlen, ?_, ?_⟩
  · intro k hk
    simp only [run_trials, List.get_eq_getElem, List.getElem_map, List.getElem_range]
    exact simLoop_attempt_id _ _ _ _ _ _
  · rw [count_partition, hlen]

/-- Witness for C7 at `num_trials = 1`. -/
theorem run_trials_spec_witness :
    (run_trials cfgOrigin (fun _ => (0, 0, 0, 0)) 1).length = 1 ∧
    (∀ k (hk : k < (run_trials cfgOrigin (fun _ => (0, 0, 0, 0)) 1).length),
      ((run_trials cfgOrigin (fun _ => (0, 0, 0, 0)) 1).get ⟨k, hk⟩).attempt_id = k + 1) ∧
    caught_count (run_trials cfgOrigin (fun _ => (0, 0, 0, 0)) 1) +
      safe_count (run_trials cfgOrigin (fun _ => (0, 0, 0, 0)) 1) +
      timeout_count (run_trials cfgOrigin (fun _ => (0, 0, 0, 0)) 1) = 1 :=
  run_trials_spec cfgOrigin (fun _ => (0, 0, 0, 0)) 1 (by norm_num)

/-- C9 — escape-time average: the average is taken over the `time_s` of
`Safe` records only, and only when at least one exists; with zero `Safe`
records no average is produced (no division by zero). -/
theorem average_escape_time_spec (results : List SimResult) :
    (safe_times results = [] → average_escape_time results = none) ∧
    (safe_times results ≠ [] →
      0 < (safe_times results).length ∧
      average_escape_time results =
        some ((safe_times results).sum / ((safe_times results).length : ℝ))) := by
  constructor
  · intro h
    simp [average_escape_time, h]
  · intro h
    exact ⟨List.length_pos.2 h, by simp [average_escape_time, h]⟩

/-- Witness for C9: a batch with one `Safe` record averages its time. -/
theorem average_escape_time_spec_witness :
    average_escape_time [⟨1, .Safe, 2, 0, 0⟩] =
      some ((safe_times [⟨1, .Safe, 2, 0, 0⟩]).sum /
        ((safe_times [⟨1, .Safe, 2, 0, 0⟩]).length : ℝ)) :=
  ((average_escape_time_spec [⟨1, .Safe, 2, 0, 0⟩]).2 (by simp [safe_times])).2

/-- C10 — degenerate step cap: whenever `2 * FIELD_SIZE < WORM_SPEED *
STEP_TIME` (speeds and step positive), `max_steps` is `0`; and whenever
`max_steps` is `0`, `run_simulation` executes no step and returns a
`Timeout` record with elapsed time `0` and the worm's rounded starting
position (neither agent ever moves). -/
theorem zero_step_cap (cfg : Config) (a : ℕ) (wx wy ox oy : ℝ) :
    (0 ≤ cfg.FIELD_SIZE → 0 < cfg.WORM_SPEED → 0 < cfg.STEP_TIME →
      2 * cfg.FIELD_SIZE < cfg.WORM_SPEED * cfg.STEP_TIME → max_steps cfg = 0) ∧
    (max_steps cfg = 0 →
      run_simulation cfg a wx wy ox oy = ⟨a, .Timeout, 0, round2 wx, round2 wy⟩) := by
  constructor
  · intro hF hW hS hlt
    have hx : cfg.FIELD_SIZE / cfg.WORM_SPEED / cfg.STEP_TIME * 2 =
        2 * cfg.FIELD_SIZE / (cfg.WORM_SPEED * cfg.STEP_TIME) := by
      field_simp
      ring
    have h0 : 0 ≤ cfg.FIELD_SIZE / cfg.WORM_SPEED / cfg.STEP_TIME * 2 := by positivity
    have h1 : cfg.FIELD_SIZE / cfg.WORM_SPEED / cfg.STEP_TIME * 2 < 1 := by
      rw [hx, div_lt_one (by positivity)]
      exact hlt
    unfold max_steps pyInt
    rw [if_pos h0, Int.floor_eq_zero_iff]
    exact ⟨h0, h1⟩
  · intro h
    unfold run_simulation
    rw [h]
    simp only [Int.toNat_zero, simLoop, round2_zero]

/-- Witness for C10 on `cfgTiny`. -/
theorem zero_step_cap_witness :
    max_steps cfgTiny = 0 ∧
    run_simulation cfgTiny 1 5 6 0 0 = ⟨1, .Timeout, 0, round2 5, round2 6⟩ := by
  have h := zero_step_cap cfgTiny 1 5 6 0 0
  have h0 : max_steps cfgTiny = 0 := by
    refine h.1 ?_ ?_ ?_ ?_ <;> norm_num [cfgTiny]
  exact ⟨h0, h.2 h0⟩

/-- C8 — observed code behaviour: the source performs no configuration
validation (`adjust_parameters` converts the inputs and calls `run_trials`
directly), so with a negative worm speed the batch silently runs and
returns a `Timeout` record instead of reporting a configuration error:
`max_steps = int(1 / -1 / 1 * 2) = -2`, the loop body never executes, and
the trial still emits a record. -/
theorem invalid_config_runs_anyway :
    run_trials cfgNegSpeed (fun _ => (0, 0, 3, 4)) 1 =
      [⟨1, .Timeout, 0, 0, 0⟩] := by
  have hms : max_steps cfgNegSpeed = -2 := by
    unfold max_steps pyInt
    have : cfgNegSpeed.FIELD_SIZE / cfgNegSpeed.WORM_SPEED / cfgNegSpeed.STEP_TIME * 2 =
        (-2 : ℝ) := by norm_num [cfgNegSpeed]
    rw [this]
    norm_num
  simp only [run_trials, List.range_succ, List.range_zero]
  simp only [List.map_cons, List.map_nil, List.nil_append]
  unfold run_simulation
  rw [hms]
  norm_num [simLoop, round2_zero]

/-- The loop never executes more iterations than its fuel. -/
theorem simLoopSteps_le (cfg : Config) :
    ∀ fuel bird worm t, simLoopSteps cfg bird worm t fuel ≤ fuel := by
  intro fuel
  induction fuel with
  | zero => intro b w t; exact Nat.le_refl 0
  | succ n ih =>
    intro b w t
    simp only [simLoopSteps]
    split
    · omega
    · split
      · omega
      · have h := ih (b.move_towards w.x w.y cfg.STEP_TIME)
          (w.move_towards cfg.SAFE_ZONE_POS.1 cfg.SAFE_ZONE_POS.2 cfg.STEP_TIME)
          (t + cfg.STEP_TIME)
        omega

/-- When the loop exhausts its fuel (a `Timeout` record), the recorded time
is the starting time plus `fuel` whole steps, rounded to two decimals. -/
theorem simLoop_timeout_time (cfg : Config) (a : ℕ) :
    ∀ fuel bird worm t,
      (simLoop cfg a bird worm t fuel).outcome = .Timeout →
      (simLoop cfg a bird worm t fuel).time_s =
        round2 (t + (fuel : ℝ) * cfg.STEP_TIME) := by
  intro fuel
  induction fuel with
  | zero => intro b w t _; simp [simLoop]
  | succ n ih =>
    intro b w t
    simp only [simLoop]
    split
    · intro h; exact absurd h (by simp)
    · split
      · intro h; exact absurd h (by simp)
      · intro h
        rw [ih _ _ _ h]
        congr 1
        push_cast
        ring

/-- C1 (amended) — step cap and termination: under positive worm speed and
step duration, the step cap computed by `run_simulation` equals
`floor(2 * field_size / worm_speed / step_time)`; the loop executes at most
that many iterations; and when the outcome is `Timeout`, the record's
elapsed time is `step_cap * step_time` rounded to two decimal places (the
source stores `round(time_elapsed, 2)`, so the product itself appears only
up to that rounding). -/
theorem trial_termination (cfg : Config) (a : ℕ) (wx wy ox oy : ℝ)
    (hF : 0 ≤ cfg.FIELD_SIZE) (hW : 0 < cfg.WORM_SPEED) (hS : 0 < cfg.STEP_TIME) :
    max_steps cfg = ⌊2 * cfg.FIELD_SIZE / cfg.WORM_SPEED / cfg.STEP_TIME⌋ ∧
    run_simulation_steps cfg wx wy ox oy ≤ (max_steps cfg).toNat ∧
    ((run_simulation cfg a wx wy ox oy).outcome = .Timeout →
      (run_simulation cfg a wx wy ox oy).time_s =
        round2 (((max_steps cfg).toNat : ℝ) * cfg.STEP_TIME)) := by
  refine ⟨?_, ?_, ?_⟩
  · unfold max_steps pyInt
    rw [if_pos (by positivity)]
    congr 1
    ring
  · exact simLoopSteps_le cfg _ _ _ _
  · intro h
    simp only [run_simulation] at h ⊢
    rw [simLoop_timeout_time cfg a _ _ _ _ h, zero_add]

/-- C1 counterexample — the claim's "elapsed time equals
`step_cap * step_duration`" fails: with `cfgShortRun`, worm start `(0, 0)`
and bird offset `(3, 4)`, the trial times out after its single step, but
the record's elapsed time is `round(0.005, 2) = 0`, not
`step_cap * step_duration = 0.005`. -/
theorem timeout_time_not_exact :
    (run_simulation cfgShortRun 1 0 0 3 4).outcome = .Timeout ∧
    (run_simulation cfgShortRun 1 0 0 3 4).time_s ≠
      ((max_steps cfgShortRun).toNat : ℝ) * cfgShortRun.STEP_TIME := by
  have hms : max_steps cfgShortRun = 1 := by
    unfold max_steps pyInt
    rw [show cfgShortRun.FIELD_SIZE / cfgShortRun.WORM_SPEED / cfgShortRun.STEP_TIME * 2
        = (6 / 5 : ℝ) by norm_num [cfgShortRun]]
    rw [if_pos (by norm_num), Int.floor_eq_iff]
    norm_num
  have h25 : Real.sqrt (((0:ℝ) - 3) ^ 2 + ((0:ℝ) - 4) ^ 2) = 5 := by
    rw [show (((0:ℝ) - 3) ^ 2 + ((0:ℝ) - 4) ^ 2) = 5 ^ 2 by norm_num,
      Real.sqrt_sq (by norm_num)]
  have h100 : Real.sqrt (((10:ℝ) - 0) ^ 2 + ((0:ℝ) - 0) ^ 2) = 10 := by
    rw [show (((10:ℝ) - 0) ^ 2 + ((0:ℝ) - 0) ^ 2) = 10 ^ 2 by norm_num,
      Real.sqrt_sq (by norm_num)]
  have hb1 : Entity.move_towards ⟨3, 4, 1⟩ 0 0 (1 / 200) =
      ⟨2997 / 1000, 999 / 250, 1⟩ := by
    simp only [Entity.move_towards]
    rw [h25]
    norm_num
  have hw1 : Entity.move_towards ⟨0, 0, 1⟩ 10 0 (1 / 200) = ⟨1 / 200, 0, 1⟩ := by
    simp only [Entity.move_towards]
    rw [h100]
    norm_num
  have hd1 : ¬ Entity.distance_to ⟨2997 / 1000, 999 / 250, 1⟩ (1 / 200) 0 ≤ 1 := by
    unfold Entity.distance_to
    rw [not_le]
    exact Real.lt_sqrt_of_sq_lt (by norm_num)
  have hd2 : ¬ Entity.distance_to ⟨1 / 200, 0, 1⟩ 10 0 ≤ 1 / 2 := by
    unfold Entity.distance_to
    rw [show (((10:ℝ) - 1 / 200) ^ 2 + ((0:ℝ) - 0) ^ 2) = (1999 / 200) ^ 2 by norm_num,
      Real.sqrt_sq (by norm_num)]
    norm_num
  have hfract : Int.fract ((1:ℝ) / 2) = 1 / 2 :=
    Int.fract_eq_self.mpr ⟨by norm_num, by norm_num⟩
  have hfloorhalf : ⌊(1:ℝ) / 2⌋ = 0 := by
    rw [Int.floor_eq_zero_iff]
    constructor <;> norm_num
  have hround : round2 (1 / 200) = 0 := by
    rw [round2, show ((1:ℝ) / 200) * 100 = 1 / 2 by norm_num, roundHalfEven,
      if_pos hfract, hfloorhalf]
    norm_num
  have hST : cfgShortRun.STEP_TIME = 1 / 200 := rfl
  have hSZ1 : cfgShortRun.SAFE_ZONE_POS.1 = 10 := rfl
  have hSZ2 : cfgShortRun.SAFE_ZONE_POS.2 = 0 := rfl
  have hBS : cfgShortRun.BIRD_SPEED = 1 := rfl
  have hWS : cfgShortRun.WORM_SPEED = 1 := rfl
  have hCR : cfgShortRun.CATCH_RADIUS = 1 := rfl
  have hrun : run_simulation cfgShortRun 1 0 0 3 4 = ⟨1, .Timeout, 0, 0, 0⟩ := by
    simp only [run_simulation, hms, Int.toNat_one, hBS, hWS]
    rw [show ((0:ℝ) + 3) = 3 by norm_num, show ((0:ℝ) + 4) = 4 by norm_num]
    show simLoop cfgShortRun 1 ⟨3, 4, 1⟩ ⟨0, 0, 1⟩ 0 (0 + 1) =
      ⟨1, .Timeout, 0, 0, 0⟩
    simp only [simLoop, hST, hSZ1, hSZ2, hCR]
    rw [hb1, hw1]
    rw [if_neg hd1, if_neg hd2]
    rw [show ((0:ℝ) + 1 / 200) = 1 / 200 by norm_num]
    simp only [simLoop, hround, round2_zero]
  rw [hrun, hms]
  constructor
  · rfl
  · norm_num [cfgShortRun]

/-- Witness for C1 on `cfgShortRun` (all hypotheses concrete). -/
theorem trial_termination_witness :
    max_steps cfgShortRun =
      ⌊2 * cfgShortRun.FIELD_SIZE / cfgShortRun.WORM_SPEED / cfgShortRun.STEP_TIME⌋ ∧
    run_simulation_steps cfgShortRun 0 0 3 4 ≤ (max_steps cfgShortRun).toNat ∧
    ((run_simulation cfgShortRun 1 0 0 3 4).outcome = .Timeout →
      (run_simulation cfgShortRun 1 0 0 3 4).time_s =
        round2 (((max_steps cfgShortRun).toNat : ℝ) * cfgShortRun.STEP_TIME)) :=
  trial_termination cfgShortRun 1 0 0 3 4 (by norm_num [cfgShortRun])
    (by norm_num [cfgShortRun]) (by norm_num [cfgShortRun])

end Wormbird
